import Mathlib

/-!
Shallow embedding of the illustrative Python snippets of the SOLID-principles
notebook (notebooks.ipynb) and proofs of the documentation-fidelity properties
stated about them.

Numbers in the snippets are Python ints/floats; the embedding is polymorphic
over a semiring so every definition stays executable, with an explicit
parameter `piv` standing for `math.pi`.  The theorems instantiate the
definitions at the real numbers with `Real.pi`.
-/

/- ## shapes_ocp.py, monolithic version (before refactoring) -/

namespace ShapesOcpMono

/-- Keyword arguments accepted by the monolithic `Shape.__init__` of
shapes_ocp.py: each key the constructor may look up is present or absent. -/
structure Kwargs (α : Type) where
  width : Option α
  height : Option α
  radius : Option α

/-- Object state of the monolithic `Shape` class of shapes_ocp.py:
`shape_type` is always set, while each dimension attribute exists only when
the corresponding branch of `__init__` ran. -/
structure Shape (α : Type) where
  shape_type : String
  width : Option α
  height : Option α
  radius : Option α

/-- Embedding of the monolithic `Shape.__init__`.  A result of `none` models a
`KeyError` escaping from a `kwargs[...]` lookup on a missing key; when the
`shape_type` matches neither branch, the if/elif chain falls through and no
dimension attribute is set. -/
def Shape.init {α : Type} (shape_type : String) (kwargs : Kwargs α) :
    Option (Shape α) :=
  if shape_type = "rectangle" then
    match kwargs.width, kwargs.height with
    | some w, some h => some ⟨shape_type, some w, some h, none⟩
    | _, _ => none
  else if shape_type = "circle" then
    match kwargs.radius with
    | some r => some ⟨shape_type, none, none, some r⟩
    | _ => none
  else
    some ⟨shape_type, none, none, none⟩

/-- State-passing embedding of the monolithic `Shape.calculate_area`: the
result pairs the object state after the call with the outcome.  The method
body contains no attribute assignment, so the state component is the
receiver.  An outcome of `none` models an `AttributeError` from reading a
dimension attribute that `__init__` never set; `some none` is Python falling
off the end of the method and returning `None`; `some (some a)` is a normal
return of the number `a`.  `piv` stands for `math.pi`. -/
def Shape.calculate_area_run {α : Type} [Semiring α] (piv : α) (s : Shape α) :
    Shape α × Option (Option α) :=
  (s,
    if s.shape_type = "rectangle" then
      match s.width, s.height with
      | some w, some h => some (some (w * h))
      | _, _ => none
    else if s.shape_type = "circle" then
      match s.radius with
      | some r => some (some (piv * r ^ 2))
      | _ => none
    else
      some none)

/-- Return value of the monolithic `Shape.calculate_area`. -/
def Shape.calculate_area {α : Type} [Semiring α] (piv : α) (s : Shape α) :
    Option (Option α) :=
  (s.calculate_area_run piv).2

end ShapesOcpMono

/- ## shapes_ocp.py, refactored version (after refactoring) -/

namespace ShapesOcp

/-- Object state of the refactored `Circle(Shape)`: `super().__init__("circle")`
sets `shape_type`, then `__init__` sets `radius`. -/
structure Circle (α : Type) where
  shape_type : String
  radius : α

/-- Embedding of `Circle.__init__`. -/
def Circle.init {α : Type} (radius : α) : Circle α :=
  ⟨"circle", radius⟩

/-- State-passing embedding of `Circle.calculate_area`; the body assigns no
attribute, so the state component is the receiver. -/
def Circle.calculate_area_run {α : Type} [Semiring α] (piv : α) (c : Circle α) :
    Circle α × α :=
  (c, piv * c.radius ^ 2)

/-- Return value of `Circle.calculate_area`. -/
def Circle.calculate_area {α : Type} [Semiring α] (piv : α) (c : Circle α) : α :=
  (c.calculate_area_run piv).2

/-- Object state of the refactored `Rectangle(Shape)`. -/
structure Rectangle (α : Type) where
  shape_type : String
  width : α
  height : α

/-- Embedding of `Rectangle.__init__`. -/
def Rectangle.init {α : Type} (width height : α) : Rectangle α :=
  ⟨"rectangle", width, height⟩

/-- State-passing embedding of `Rectangle.calculate_area`. -/
def Rectangle.calculate_area_run {α : Type} [Semiring α] (r : Rectangle α) :
    Rectangle α × α :=
  (r, r.width * r.height)

/-- Return value of `Rectangle.calculate_area`. -/
def Rectangle.calculate_area {α : Type} [Semiring α] (r : Rectangle α) : α :=
  r.calculate_area_run.2

/-- Object state of the refactored `Square(Shape)` of shapes_ocp.py. -/
structure Square (α : Type) where
  shape_type : String
  side : α

/-- Embedding of `Square.__init__` of shapes_ocp.py. -/
def Square.init {α : Type} (side : α) : Square α :=
  ⟨"square", side⟩

/-- State-passing embedding of `Square.calculate_area` of shapes_ocp.py. -/
def Square.calculate_area_run {α : Type} [Semiring α] (s : Square α) :
    Square α × α :=
  (s, s.side ^ 2)

/-- Return value of `Square.calculate_area` of shapes_ocp.py. -/
def Square.calculate_area {α : Type} [Semiring α] (s : Square α) : α :=
  s.calculate_area_run.2

end ShapesOcp

/- ## shapes_lsp.py, first version: `Square` as a subclass of `Rectangle` -/

namespace ShapesLspV1

/-- Attribute keys ever assigned on a shapes_lsp `Square`: its instance dict
holds exactly `width` and `height`, as the `vars(square)` transcript shows. -/
inductive Attr
  | width
  | height
  deriving DecidableEq

/-- Instance dictionary of a shapes_lsp `Square` (the subclass of
`Rectangle`): each attribute is present once it has been assigned. -/
structure SquareDict (α : Type) where
  width : Option α
  height : Option α

/-- Embedding of the `super().__setattr__(key, value)` call inside
`Square.__setattr__`, which stores just the given key. -/
def SquareDict.setattrSuper {α : Type} (d : SquareDict α) : Attr → α → SquareDict α
  | Attr.width, v => { d with width := some v }
  | Attr.height, v => { d with height := some v }

/-- Embedding of `Square.__setattr__` of shapes_lsp.py: delegate to the
superclass, then, if the key is one of `"width"`/`"height"`, write the value
into both dict slots. -/
def SquareDict.setattr {α : Type} (d : SquareDict α) (key : Attr) (value : α) :
    SquareDict α :=
  let d1 := d.setattrSuper key value
  if key = Attr.width ∨ key = Attr.height then
    { d1 with width := some value, height := some value }
  else
    d1

/-- Embedding of `Square.__init__` of shapes_lsp.py: `super().__init__(side,
side)` runs `Rectangle.__init__`, whose two assignments `self.width = width`
and `self.height = height` dispatch to `Square.__setattr__` on the initially
empty instance dict. -/
def Square.init {α : Type} (side : α) : SquareDict α :=
  ((SquareDict.mk none none).setattr Attr.width side).setattr Attr.height side

end ShapesLspV1

/- ## shapes_lsp.py, refactored version: `Rectangle` and `Square` as siblings -/

namespace ShapesLsp

/-- Concrete shapes of the refactored shapes_lsp.py: `Rectangle` and `Square`
are sibling subclasses of the abstract `Shape`, so a `Shape` value is one or
the other. -/
inductive Shape (α : Type)
  | rectangle (width height : α)
  | square (side : α)

/-- State-passing embedding of `calculate_area` of the refactored shapes_lsp
classes (`Rectangle` multiplies width by height, `Square` squares its side);
neither body assigns an attribute, so the state component is the receiver. -/
def Shape.calculate_area_run {α : Type} [Semiring α] (s : Shape α) :
    Shape α × α :=
  (s,
    match s with
    | Shape.rectangle w h => w * h
    | Shape.square side => side ^ 2)

/-- Return value of `calculate_area` of the refactored shapes_lsp classes. -/
def Shape.calculate_area {α : Type} [Semiring α] (s : Shape α) : α :=
  s.calculate_area_run.2

/-- Embedding of the transcript helper
`get_total_area(shapes) = sum(shape.calculate_area() for shape in shapes)`. -/
def get_total_area {α : Type} [Semiring α] (shapes : List (Shape α)) : α :=
  (shapes.map Shape.calculate_area).sum

end ShapesLsp

/- ## printers_isp.py -/

/-- Outcome of calling a printer method on a document: either the call
completes normally after writing the given console line, or it raises
`NotImplementedError` with the given message. -/
inductive PrintResult
  | output (line : String)
  | notImplementedError (message : String)
  deriving DecidableEq

/-- A printer call completes normally exactly when it produced console output
rather than raising. -/
def PrintResult.completesNormally : PrintResult → Bool
  | PrintResult.output _ => true
  | PrintResult.notImplementedError _ => false

namespace PrintersIspV1

/-- Embedding of the original `OldPrinter.print` of printers_isp.py. -/
def OldPrinter.print (document : String) : PrintResult :=
  PrintResult.output ("Printing " ++ document ++ " in black and white...")

/-- Embedding of the original `OldPrinter.fax` of printers_isp.py. -/
def OldPrinter.fax (_document : String) : PrintResult :=
  PrintResult.notImplementedError "Fax functionality not supported"

/-- Embedding of the original `OldPrinter.scan` of printers_isp.py. -/
def OldPrinter.scan (_document : String) : PrintResult :=
  PrintResult.notImplementedError "Scan functionality not supported"

/-- Embedding of `ModernPrinter.print` of printers_isp.py. -/
def ModernPrinter.print (document : String) : PrintResult :=
  PrintResult.output ("Printing " ++ document ++ " in color...")

/-- Embedding of `ModernPrinter.fax` of printers_isp.py. -/
def ModernPrinter.fax (document : String) : PrintResult :=
  PrintResult.output ("Faxing " ++ document ++ "...")

/-- Embedding of `ModernPrinter.scan` of printers_isp.py. -/
def ModernPrinter.scan (document : String) : PrintResult :=
  PrintResult.output ("Scanning " ++ document ++ "...")

end PrintersIspV1

namespace PrintersIsp

/-- Embedding of the refactored `OldPrinter.print` of printers_isp.py, the only
method the refactored class has. -/
def OldPrinter.print (document : String) : PrintResult :=
  PrintResult.output ("Printing " ++ document ++ " in black and white...")

/-- Embedding of `NewPrinter.print` of printers_isp.py. -/
def NewPrinter.print (document : String) : PrintResult :=
  PrintResult.output ("Printing " ++ document ++ " in color...")

/-- Embedding of `NewPrinter.fax` of printers_isp.py. -/
def NewPrinter.fax (document : String) : PrintResult :=
  PrintResult.output ("Faxing " ++ document ++ "...")

/-- Embedding of `NewPrinter.scan` of printers_isp.py. -/
def NewPrinter.scan (document : String) : PrintResult :=
  PrintResult.output ("Scanning " ++ document ++ "...")

end PrintersIsp

/- ## app_dip.py, refactored version -/

namespace AppDip

/-- Concrete data sources of the refactored app_dip.py: `Database` and `API`
are the subclasses of the abstract `DataSource`. -/
inductive DataSource
  | database
  | api
  deriving DecidableEq

/-- Embedding of `get_data`, dispatching to `Database.get_data` or
`API.get_data`. -/
def DataSource.get_data : DataSource → String
  | DataSource.database => "Data from the database"
  | DataSource.api => "Data from the API"

/-- Object state of the refactored `FrontEnd` of app_dip.py. -/
structure FrontEnd where
  data_source : DataSource

/-- Embedding of `FrontEnd.display_data`: `print("Display data:", data)` writes
its two arguments separated by a single space. -/
def FrontEnd.display_data (f : FrontEnd) : String :=
  "Display data:" ++ " " ++ f.data_source.get_data

end AppDip

/- ## file_manager_srp.py, split version -/

namespace FileManagerSrp

/-- File-system state: the text each path currently holds, if any.  The byte
level is abstracted away: `Path.write_text` followed by `Path.read_text` with
one and the same encoding (both methods default to `"utf-8"`) is the identity
on text, so contents are stored as the text written. -/
def FS : Type := String → Option String

/-- Object state of the split `FileManager` of file_manager_srp.py: `__init__`
stores `Path(filename)`. -/
structure FileManager where
  path : String

/-- Embedding of `FileManager.__init__`. -/
def FileManager.init (filename : String) : FileManager :=
  { path := filename }

/-- State-passing embedding of `FileManager.write`:
`self.path.write_text(data, encoding)` replaces the content at `self.path`;
the method assigns no attribute, so the manager state returned is the
receiver.  The `encoding` parameter defaults to `"utf-8"` in the source. -/
def FileManager.write_run (m : FileManager) (data : String) (_encoding : String)
    (fs : FS) : FileManager × FS :=
  (m, fun p => if p = m.path then some data else fs p)

/-- State-passing embedding of `FileManager.read`:
`self.path.read_text(encoding)` returns the content at `self.path`, where
`none` models the `FileNotFoundError` raised when no file exists there; the
manager state returned is the receiver.  The `encoding` parameter defaults to
`"utf-8"` in the source. -/
def FileManager.read_run (m : FileManager) (_encoding : String) (fs : FS) :
    FileManager × Option String :=
  (m, fs m.path)

end FileManagerSrp

/- ## Theorems -/

/-- Claim C1: for the monolithic `Shape` class of the OCP snippet,
`Shape("rectangle", width=10, height=5).calculate_area()` returns 50, and
`Shape("circle", radius=5).calculate_area()` returns `pi * 5 ** 2`, whose
value is 78.53981633974483 to within 10⁻¹⁰, exactly as printed in the example
transcript. -/
theorem ocp_mono_transcript :
    (ShapesOcpMono.Shape.init "rectangle" ⟨some (10 : ℝ), some 5, none⟩).bind
        (ShapesOcpMono.Shape.calculate_area Real.pi) = some (some 50)
    ∧ (ShapesOcpMono.Shape.init "circle" ⟨none, none, some (5 : ℝ)⟩).bind
        (ShapesOcpMono.Shape.calculate_area Real.pi)
        = some (some (Real.pi * 5 ^ 2))
    ∧ |Real.pi * 5 ^ 2 - 78.53981633974483| < 1 / 10 ^ 10 := by
  refine ⟨?_, ?_, ?_⟩
  · norm_num [ShapesOcpMono.Shape.init, ShapesOcpMono.Shape.calculate_area,
      ShapesOcpMono.Shape.calculate_area_run, Option.bind, String.reduceEq]
  · rfl
  · rw [abs_lt]
    constructor
    · nlinarith [Real.pi_gt_d20]
    · nlinarith [Real.pi_lt_d20]

/-- Claim C2: in the LSP transcript, `get_total_area` applied to the
two-element list `[Rectangle(10, 5), Square(5)]` built from the refactored
sibling classes returns 75. -/
theorem lsp_get_total_area :
    ShapesLsp.get_total_area
        [ShapesLsp.Shape.rectangle (10 : ℝ) 5, ShapesLsp.Shape.square 5] = 75 := by
  norm_num [ShapesLsp.get_total_area, ShapesLsp.Shape.calculate_area,
    ShapesLsp.Shape.calculate_area_run]

/-- Claim C3: the before/after pair of the OCP snippet computes the same
areas: for every width `w` and height `h`, the refactored
`Rectangle(w, h).calculate_area()` equals the monolithic
`Shape("rectangle", width=w, height=h).calculate_area()`, and for every
radius `r`, the refactored `Circle(r).calculate_area()` equals
`Shape("circle", radius=r).calculate_area()`. -/
theorem ocp_refactoring_preserves_area (w h r : ℝ) :
    (ShapesOcpMono.Shape.init "rectangle" ⟨some w, some h, none⟩).bind
        (ShapesOcpMono.Shape.calculate_area Real.pi)
      = some (some ((ShapesOcp.Rectangle.init w h).calculate_area))
    ∧ (ShapesOcpMono.Shape.init "circle" ⟨none, none, some r⟩).bind
        (ShapesOcpMono.Shape.calculate_area Real.pi)
      = some (some ((ShapesOcp.Circle.init r).calculate_area Real.pi)) :=
  ⟨rfl, rfl⟩

/-- Claim C4: in the original ISP snippet, for every document,
`OldPrinter.fax` and `OldPrinter.scan` raise `NotImplementedError` with the
messages "Fax functionality not supported" and "Scan functionality not
supported" respectively, while `OldPrinter.print` completes normally,
printing "Printing {document} in black and white...". -/
theorem isp_old_printer_original (document : String) :
    PrintersIspV1.OldPrinter.fax document
        = PrintResult.notImplementedError "Fax functionality not supported"
    ∧ PrintersIspV1.OldPrinter.scan document
        = PrintResult.notImplementedError "Scan functionality not supported"
    ∧ PrintersIspV1.OldPrinter.print document
        = PrintResult.output ("Printing " ++ document ++ " in black and white...") :=
  ⟨rfl, rfl, rfl⟩

/-- Claim C5: in the refactored DIP snippet, `FrontEnd(Database())
.display_data()` prints exactly "Display data: Data from the database" and
`FrontEnd(API()).display_data()` prints exactly "Display data: Data from the
API", as in the example transcript. -/
theorem dip_transcript :
    (AppDip.FrontEnd.mk AppDip.DataSource.database).display_data
        = "Display data: Data from the database"
    ∧ (AppDip.FrontEnd.mk AppDip.DataSource.api).display_data
        = "Display data: Data from the API" := by
  exact ⟨rfl, rfl⟩

/-- Claim C6: no area computation persists state across invocations: for the
monolithic `Shape`, the refactored OCP `Circle`/`Rectangle`/`Square`, and the
refactored LSP shapes, a `calculate_area` call leaves every attribute of the
object unchanged, and two consecutive calls on the same object return equal
results. -/
theorem calculate_area_pure :
    (∀ s : ShapesOcpMono.Shape ℝ,
        (s.calculate_area_run Real.pi).1 = s
        ∧ (s.calculate_area_run Real.pi).2
            = ((s.calculate_area_run Real.pi).1.calculate_area_run Real.pi).2)
    ∧ (∀ c : ShapesOcp.Circle ℝ,
        (c.calculate_area_run Real.pi).1 = c
        ∧ (c.calculate_area_run Real.pi).2
            = ((c.calculate_area_run Real.pi).1.calculate_area_run Real.pi).2)
    ∧ (∀ r : ShapesOcp.Rectangle ℝ,
        r.calculate_area_run.1 = r
        ∧ r.calculate_area_run.2 = r.calculate_area_run.1.calculate_area_run.2)
    ∧ (∀ q : ShapesOcp.Square ℝ,
        q.calculate_area_run.1 = q
        ∧ q.calculate_area_run.2 = q.calculate_area_run.1.calculate_area_run.2)
    ∧ (∀ t : ShapesLsp.Shape ℝ,
        t.calculate_area_run.1 = t
        ∧ t.calculate_area_run.2 = t.calculate_area_run.1.calculate_area_run.2) :=
  ⟨fun _ => ⟨rfl, rfl⟩, fun _ => ⟨rfl, rfl⟩, fun _ => ⟨rfl, rfl⟩,
    fun _ => ⟨rfl, rfl⟩, fun _ => ⟨rfl, rfl⟩⟩

/-- Claim C7: other than the placeholder failures of the original
`OldPrinter.fax` and `OldPrinter.scan`, no printer operation raises: for
every document, `print`, `fax` and `scan` of `ModernPrinter`, `print`, `fax`
and `scan` of `NewPrinter`, and `print` of the refactored `OldPrinter` all
complete normally. -/
theorem isp_printers_total (document : String) :
    (PrintersIspV1.ModernPrinter.print document).completesNormally = true
    ∧ (PrintersIspV1.ModernPrinter.fax document).completesNormally = true
    ∧ (PrintersIspV1.ModernPrinter.scan document).completesNormally = true
    ∧ (PrintersIsp.NewPrinter.print document).completesNormally = true
    ∧ (PrintersIsp.NewPrinter.fax document).completesNormally = true
    ∧ (PrintersIsp.NewPrinter.scan document).completesNormally = true
    ∧ (PrintersIsp.OldPrinter.print document).completesNormally = true :=
  ⟨rfl, rfl, rfl, rfl, rfl, rfl, rfl⟩

/-- Claim C8: for the LSP `Square` subclass of `Rectangle`, the invariant
`width == height` holds after construction from any side, and every
assignment through `__setattr__` to the `width` or `height` attribute sets
both attributes to the assigned value. -/
theorem lsp_square_width_height_sync :
    (∀ side : ℝ,
        (ShapesLspV1.Square.init side).width = some side
        ∧ (ShapesLspV1.Square.init side).height = some side)
    ∧ (∀ (d : ShapesLspV1.SquareDict ℝ) (key : ShapesLspV1.Attr) (v : ℝ),
        (d.setattr key v).width = some v ∧ (d.setattr key v).height = some v) := by
  constructor
  · intro side
    exact ⟨rfl, rfl⟩
  · intro d key v
    cases key <;>
      simp [ShapesLspV1.SquareDict.setattr, ShapesLspV1.SquareDict.setattrSuper]

/-- Claim C9: for every monolithic OCP `Shape` constructed with a
`shape_type` that is neither "rectangle" nor "circle", the constructor sets
no dimension attribute, and `calculate_area()` returns `None` rather than a
number or an error: both if/elif chains fall through silently. -/
theorem ocp_mono_unknown_shape_type (t : String) (kw : ShapesOcpMono.Kwargs ℝ)
    (h1 : t ≠ "rectangle") (h2 : t ≠ "circle") :
    ShapesOcpMono.Shape.init t kw = some ⟨t, none, none, none⟩
    ∧ ShapesOcpMono.Shape.calculate_area Real.pi
        (⟨t, none, none, none⟩ : ShapesOcpMono.Shape ℝ) = some none := by
  constructor
  · unfold ShapesOcpMono.Shape.init
    rw [if_neg h1, if_neg h2]
  · unfold ShapesOcpMono.Shape.calculate_area ShapesOcpMono.Shape.calculate_area_run
    simp only
    rw [if_neg h1, if_neg h2]

/-- Witness for claim C9 at the concrete shape type "triangle" with no
keyword arguments. -/
theorem ocp_mono_unknown_shape_type_witness :
    ShapesOcpMono.Shape.init "triangle"
        (⟨none, none, none⟩ : ShapesOcpMono.Kwargs ℝ)
        = some ⟨"triangle", none, none, none⟩
    ∧ ShapesOcpMono.Shape.calculate_area Real.pi
        (⟨"triangle", none, none, none⟩ : ShapesOcpMono.Shape ℝ) = some none :=
  ocp_mono_unknown_shape_type "triangle" ⟨none, none, none⟩ (by decide) (by decide)

/-- Claim C10: for the split SRP `FileManager`, write followed by read is a
round-trip: for every filename, every data string and every starting file
system, after `FileManager(filename).write(data)` with the default encoding,
`FileManager(filename).read()` with the default encoding returns exactly
`data`, and neither call changes the manager object. -/
theorem srp_file_manager_round_trip (filename data : String)
    (fs : FileManagerSrp.FS) :
    ((FileManagerSrp.FileManager.init filename).write_run data "utf-8" fs).1
        = FileManagerSrp.FileManager.init filename
    ∧ ((FileManagerSrp.FileManager.init filename).read_run "utf-8"
          (((FileManagerSrp.FileManager.init filename).write_run data "utf-8"
              fs).2)).1
        = FileManagerSrp.FileManager.init filename
    ∧ ((FileManagerSrp.FileManager.init filename).read_run "utf-8"
          (((FileManagerSrp.FileManager.init filename).write_run data "utf-8"
              fs).2)).2
        = some data := by
  refine ⟨rfl, rfl, ?_⟩
  simp [FileManagerSrp.FileManager.read_run, FileManagerSrp.FileManager.write_run,
    FileManagerSrp.FileManager.init]
